import Mathlib

/-!
Verification development for the enhanced node tester
(src/enhanced_tester.py).

The Python program probes a list of network nodes: a TCP connectivity
check, an HTTP latency check, a download-speed estimate over a fallback
chain of payload URLs, a geolocation lookup over a fallback chain of
providers, and a set of streaming-capability checks; a batch orchestrator
runs one pipeline per node under a semaphore, and a report aggregator
reduces the results.

The embedding is a shallow one: every network interaction is abstracted
into an environment oracle (structure Env) that fixes, for each request
the program can issue, the outcome the network would give (None standing
for a raised exception).  The control flow, field updates, defaults and
string literals are translated directly from the source.  Durations and
speeds are rationals.  Where a claim needs to observe which probes were
invoked, the pipeline additionally returns a list of probe names,
appended exactly at the source call sites.
-/

namespace EnhancedTester

/-- A node record, as consumed by the tester (name, server, port,
protocol); mirrors the MockNode shape used by the program. -/
structure Node where
  name : String
  server : String
  port : Nat
  protocol : String
deriving DecidableEq, Repr

/-- Translation of the NodeTestResult dataclass with its field defaults
(lines 27-63 of enhanced_tester.py). -/
structure NodeTestResult where
  name : String
  server : String
  port : Nat
  protocol : String
  tcp_ping : Rat := -1
  http_ping : Rat := -1
  is_alive : Bool := false
  download_speed : Rat := 0
  upload_speed : Rat := 0
  real_ip : String := ""
  country : String := ""
  city : String := ""
  isp : String := ""
  netflix : String := "未测试"
  youtube : String := "未测试"
  disney : String := "未测试"
  hbo : String := "未测试"
  prime_video : String := "未测试"
  bilibili : String := "未测试"
  bahamut : String := "未测试"
  test_time : String := ""
  error_msg : String := ""
deriving DecidableEq, Repr

/-- The configuration dict.  A field set to none models a dict missing
that key; the program reads flags with truthiness (missing key is falsy)
and the concurrency cap with config.get with default 5. -/
structure Config where
  enable_speed_test : Option Bool := none
  enable_streaming_test : Option Bool := none
  enable_ip_test : Option Bool := none
  max_concurrent : Option Int := none
deriving Repr

/-- The default config dict installed by EnhancedNodeTester.__init__
when no config is passed (lines 382-389). -/
def defaultConfig : Config :=
  { enable_speed_test := some true
    enable_streaming_test := some true
    enable_ip_test := some true
    max_concurrent := some 5 }

/-- Network oracle.  Each field fixes the outcome of one kind of request
the program can issue; none models a raised exception at that request. -/
structure Env where
  /-- value of time.strftime at result creation -/
  now : String := ""
  /-- socket connect_ex outcome per (host, port): none is an exception in
  socket setup or connect; some (code, elapsedMs) is the return code of
  connect_ex together with the measured elapsed milliseconds -/
  tcpConnect : String → Nat → Option (Int × Rat) := fun _ _ => none
  /-- outcome of the single GET in http_ping_test: none is an exception
  (including timeout); some t is the measured round trip in ms -/
  httpPing : Option Rat := none
  /-- per download candidate URL: none is a raised exception; some
  (status, bytes, elapsedSec) is the response status, the bytes
  accumulated by the chunk loop, and the elapsed seconds -/
  downloadAttempt : String → Option (Nat × Nat × Rat) := fun _ => none
  /-- per geo provider URL: none is a raised exception (including a JSON
  parse failure); some (status, obj) is the response status and the
  parsed JSON object as a string-to-string association list -/
  geoGet : String → Option (Nat × List (String × String)) := fun _ => none
  /-- Netflix check response: none is an exception; some (status, body) -/
  netflixResp : Option (Nat × String) := none
  /-- YouTube check response -/
  youtubeResp : Option (Nat × String) := none
  /-- Disney check response -/
  disneyResp : Option (Nat × String) := none
  /-- bilibili check response: the body is the parsed code field of the
  JSON, none inside when the key is absent -/
  biliResp : Option (Nat × Option Int) := none
  /-- bahamut check response -/
  bahamutResp : Option (Nat × String) := none
  /-- whether asyncio.wait_for times out for the named capability task -/
  streamTimeout : String → Bool := fun _ => false
  /-- exception raised by StreamingTester.create_session, if any; it is
  the one call in the reachable branch of test_single_node not guarded
  by an inner handler, so it reaches the pipeline-level except -/
  createSessionExc : Option String := none
  /-- per task index: some msg when asyncio.gather returns an exception
  object for that task (e.g. cancellation), none when it returns the
  pipeline result -/
  gatherExc : Nat → Option String := fun _ => none

/-! ## StreamingTester (lines 65-227) -/

/-- Whether the first character list is an initial segment of the
second. -/
def leadsList : List Char → List Char → Bool
  | [], _ => true
  | _ :: _, [] => false
  | a :: as, b :: bs => a == b && leadsList as bs

/-- Whether the pattern occurs contiguously somewhere in the list. -/
def occursIn (pat : List Char) : List Char → Bool
  | [] => leadsList pat []
  | c :: rest => leadsList pat (c :: rest) || occursIn pat rest

/-- Substring containment, the Python in operator on str. -/
def strContains (s pat : String) : Bool := occursIn pat.data s.data

/-- StreamingTester.test_netflix: classify the response body against the
literal marker strings; any exception or non-200 status yields the
detection-failed marker. -/
def test_netflix (env : Env) : String :=
  match env.netflixResp with
  | none => "❓ 检测失败"
  | some (status, content) =>
    if status == 200 then
      if strContains content "Not Available" || strContains content "不可播放" then
        "❌ 不支持"
      else if strContains content.toLower "watch now" || strContains content "立即观看" then
        "✅ 完整支持"
      else
        "⚠️ 部分支持"
    else
      "❓ 检测失败"

/-- StreamingTester.test_youtube_premium. -/
def test_youtube_premium (env : Env) : String :=
  match env.youtubeResp with
  | none => "❓ 检测失败"
  | some (status, content) =>
    if status == 200 then
      if strContains content "Premium" then "✅ 支持"
      else "❌ 不支持"
    else "❓ 检测失败"

/-- StreamingTester.test_disney_plus. -/
def test_disney_plus (env : Env) : String :=
  match env.disneyResp with
  | none => "❓ 检测失败"
  | some (status, content) =>
    if status == 200 then
      if strContains content.toLower "not available" then "❌ 不支持"
      else if strContains content.toLower "sign up"
           || strContains content.toLower "subscribe" then "✅ 支持"
      else "⚠️ 部分支持"
    else "❓ 检测失败"

/-- StreamingTester.test_bilibili: branches on the code field of the
JSON payload. -/
def test_bilibili (env : Env) : String :=
  match env.biliResp with
  | none => "❓ 检测失败"
  | some (status, code) =>
    if status == 200 then
      if code == some 0 then "✅ 支持"
      else if code == some (-10403) then "❌ 不支持"
      else "⚠️ 部分支持"
    else "❓ 检测失败"

/-- StreamingTester.test_bahamut. -/
def test_bahamut (env : Env) : String :=
  match env.bahamutResp with
  | none => "❓ 检测失败"
  | some (status, content) =>
    if status == 200 then
      if strContains content "地區限制"
         || strContains content "地区限制" then "❌ 不支持"
      else if strContains content "動畫瘋"
           || strContains content "动画疯" then "✅ 支持"
      else "⚠️ 部分支持"
    else "❓ 检测失败"

/-- The fixed capability list of test_all_streaming, in source order. -/
def streamNames : List String :=
  ["netflix", "youtube", "disney", "bilibili", "bahamut"]

/-- Dispatch from capability name to its check, as paired in the tasks
list of test_all_streaming (lines 203-209). -/
def streamCheck (env : Env) : String → String
  | "netflix" => test_netflix env
  | "youtube" => test_youtube_premium env
  | "disney" => test_disney_plus env
  | "bilibili" => test_bilibili env
  | "bahamut" => test_bahamut env
  | _ => "❓ 检测失败"

/-- StreamingTester.test_all_streaming (lines 198-221): for each named
task, awaiting under wait_for either times out (timeout marker) or
yields the result of the check; the checks themselves never raise, since
each one catches every exception internally. -/
def test_all_streaming (env : Env) : List (String × String) :=
  streamNames.map fun name =>
    (name, if env.streamTimeout name then "⏱️ 超时" else streamCheck env name)

/-! ## SpeedTester (lines 229-296) -/

/-- The fixed candidate payload URL list (lines 240-245). -/
def test_urls : List String :=
  [ "http://speedtest.ftp.otenet.gr/files/test1Mb.db"
  , "http://speedtest.ftp.otenet.gr/files/test10Mb.db"
  , "https://proof.ovh.net/files/1Mb.dat"
  , "https://proof.ovh.net/files/10Mb.dat" ]

/-- SpeedTester._download_test_single: error when the request raised;
otherwise bytes are counted only under a 200 status, and the speed is
bytes over elapsed in MB/s when elapsed is positive, else 0. -/
def download_test_single (env : Env) (url : String) : Except Unit Rat :=
  match env.downloadAttempt url with
  | none => .error ()
  | some (status, bytes, elapsed) =>
    let downloaded : Rat := if status == 200 then (bytes : Rat) else 0
    if 0 < elapsed then .ok (downloaded / 1024 / 1024 / elapsed)
    else .ok 0

/-- SpeedTester.test_download_speed (lines 236-261): fold over the
candidate URLs keeping the best speed seen; a candidate whose attempt
raised is skipped. -/
def test_download_speed (env : Env) : Rat :=
  test_urls.foldl
    (fun best url =>
      match download_test_single env url with
      | .error _ => best
      | .ok speed => if best < speed then speed else best)
    0

/-- SpeedTester.test_upload_speed: 0.7 times a fresh download run. -/
def test_upload_speed (env : Env) : Rat :=
  test_download_speed env * (7 / 10)

/-! ## IPInfoTester (lines 298-376) -/

/-- The geo record assembled by one provider parse. -/
structure IpInfo where
  ip : String
  country : String
  city : String
  isp : String
deriving DecidableEq, Repr

/-- The fixed provider chain (lines 309-314), in priority order. -/
def geoApis : List String :=
  [ "https://ipapi.co/json/"
  , "http://ip-api.com/json/"
  , "https://httpbin.org/ip"
  , "https://api.ipify.org?format=json" ]

/-- dict.get with a string default. -/
def jget (d : List (String × String)) (k : String) : String :=
  (d.lookup k).getD ""

/-- IPInfoTester._query_ip_api (lines 335-375): error when the request
or the JSON parse raised; otherwise, under a 200 status, parse the body
by the schema of whichever provider the URL matches; any other path
returns none. -/
def query_ip_api (env : Env) (api_url : String) : Except Unit (Option IpInfo) :=
  match env.geoGet api_url with
  | none => .error ()
  | some (status, data) =>
    if status == 200 then
      if strContains api_url "ipapi.co" then
        .ok (some { ip := jget data "ip", country := jget data "country_name"
                    city := jget data "city", isp := jget data "org" })
      else if strContains api_url "ip-api.com" then
        .ok (some { ip := jget data "query", country := jget data "country"
                    city := jget data "city", isp := jget data "isp" })
      else if strContains api_url "httpbin.org" then
        .ok (some { ip := jget data "origin", country := "未知"
                    city := "未知", isp := "未知" })
      else if strContains api_url "ipify.org" then
        .ok (some { ip := jget data "ip", country := "未知"
                    city := "未知", isp := "未知" })
      else .ok none
    else .ok none

/-- The all-unknown sentinel record returned when every provider fails
(lines 324-329). -/
def unknownIpInfo : IpInfo :=
  { ip := "未知", country := "未知", city := "未知", isp := "未知" }

/-- Recursion over the provider chain: first provider whose query
returns a truthy (non-none) record wins; a raised query is skipped. -/
def get_ip_info_go (env : Env) : List String → IpInfo
  | [] => unknownIpInfo
  | api :: rest =>
    match query_ip_api env api with
    | .error _ => get_ip_info_go env rest
    | .ok none => get_ip_info_go env rest
    | .ok (some r) => r

/-- IPInfoTester.get_ip_info (lines 305-333). -/
def get_ip_info (env : Env) : IpInfo :=
  get_ip_info_go env geoApis

/-! ## EnhancedNodeTester (lines 378-584) -/

/-- EnhancedNodeTester.tcp_ping_test (lines 391-407): an exception
yields (false, -1); otherwise reachability is connect_ex returning 0,
and the latency is reported only in that case, else -1. -/
def tcp_ping_test (env : Env) (host : String) (port : Nat) : Bool × Rat :=
  match env.tcpConnect host port with
  | none => (false, -1)
  | some (code, elapsedMs) =>
    (code == 0, if code == 0 then elapsedMs else -1)

/-- EnhancedNodeTester.http_ping_test (lines 409-426): one GET to the
fixed generate_204 endpoint; the proxy_url argument is accepted but not
used by the body.  Any exception yields -1. -/
def http_ping_test (env : Env) (_proxy_url : Option String) : Rat :=
  match env.httpPing with
  | none => -1
  | some t => t

/-- EnhancedNodeTester._build_proxy_url (lines 493-505): a URL only for
the http and socks5 protocol tags, none for every other tag. -/
def build_proxy_url (node : Node) : Option String :=
  if node.protocol == "http" then
    some ("http://" ++ node.server ++ ":" ++ toString node.port)
  else if node.protocol == "socks5" then
    some ("socks5://" ++ node.server ++ ":" ++ toString node.port)
  else none

/-- Truthiness of a config flag read with dict get: a missing key is
falsy. -/
def Config.flag (o : Option Bool) : Bool := o.getD false

/-- EnhancedNodeTester.test_single_node (lines 428-491), instrumented:
the second component lists, in order, the probes the pipeline invoked,
appended exactly at the source call sites.  The stages mirror the
source: connectivity first, early return with the TCP-failure message
when unreachable; then the HTTP ping only under a built proxy URL; then
geo, speed and streaming stages under their config flags.  The one call
in the reachable branch that can raise to the pipeline-level except is
create_session; in that case the error message is recorded on the
fields assigned so far, mirroring the except handler at line 487. -/
def test_single_node (cfg : Config) (env : Env) (node : Node) :
    NodeTestResult × List String :=
  let base : NodeTestResult :=
    { name := node.name, server := node.server, port := node.port
      protocol := node.protocol, test_time := env.now }
  let tcp := tcp_ping_test env node.server node.port
  let r1 := { base with is_alive := tcp.1, tcp_ping := tcp.2 }
  if !tcp.1 then
    ({ r1 with error_msg := "TCP连接失败" }, ["tcp_ping_test"])
  else
    let proxy_url := build_proxy_url node
    let s2 :=
      match proxy_url with
      | some u =>
        ({ r1 with http_ping := http_ping_test env (some u) },
         ["tcp_ping_test", "http_ping_test"])
      | none => (r1, ["tcp_ping_test"])
    let s3 :=
      if Config.flag cfg.enable_ip_test then
        let info := get_ip_info env
        ({ s2.1 with real_ip := info.ip, country := info.country
                     city := info.city, isp := info.isp },
         s2.2 ++ ["get_ip_info"])
      else s2
    let s4 :=
      if Config.flag cfg.enable_speed_test then
        ({ s3.1 with download_speed := test_download_speed env
                     upload_speed := test_upload_speed env },
         s3.2 ++ ["test_download_speed", "test_upload_speed"])
      else s3
    if Config.flag cfg.enable_streaming_test then
      match env.createSessionExc with
      | some msg => ({ s4.1 with error_msg := msg }, s4.2)
      | none =>
        let sr := test_all_streaming env
        ({ s4.1 with
             netflix := (sr.lookup "netflix").getD "未测试"
             youtube := (sr.lookup "youtube").getD "未测试"
             disney := (sr.lookup "disney").getD "未测试"
             bilibili := (sr.lookup "bilibili").getD "未测试"
             bahamut := (sr.lookup "bahamut").getD "未测试" },
         s4.2 ++ ["test_all_streaming"])
    else s4

/-- The per-index result conversion of test_nodes_batch (lines 523-539):
a task whose gathered outcome is an exception object is replaced by a
fresh result carrying the identity fields of the node at that index and
the exception text; any other outcome is the pipeline result. -/
def batchResults (cfg : Config) (env : Env) : Nat → List Node → List NodeTestResult
  | _, [] => []
  | i, node :: rest =>
    (match env.gatherExc i with
     | some msg =>
       { name := node.name, server := node.server, port := node.port
         protocol := node.protocol, error_msg := msg, test_time := env.now }
     | none => (test_single_node cfg env node).1)
      :: batchResults cfg env (i + 1) rest

/-- EnhancedNodeTester.test_nodes_batch (lines 507-544).  The semaphore
is constructed before any task runs; asyncio.Semaphore raises ValueError
exactly when its initial value is negative, and that is the only way the
batch call itself can fail.  Otherwise one result per node is returned,
in input order, exceptions converted per index. -/
def test_nodes_batch (cfg : Config) (env : Env) (nodes : List Node) :
    Except String (List NodeTestResult) :=
  if cfg.max_concurrent.getD 5 < 0 then
    .error "ValueError: Semaphore initial value must be >= 0"
  else
    .ok (batchResults cfg env 0 nodes)

/-! ## ReportAggregator (lines 546-584) -/

/-- The stats block of the report. -/
structure ReportStats where
  total_nodes : Nat
  alive_nodes : Nat
  dead_nodes : Nat
  alive_rate : Rat
  avg_tcp_ping : Rat
  avg_download_speed : Rat
deriving DecidableEq, Repr

/-- One per-service entry of the streaming stats table. -/
structure ServiceStat where
  supported : Nat
  rate : Rat
deriving DecidableEq, Repr

/-- The report value assembled by generate_test_report. -/
structure Report where
  test_time : String
  stats : ReportStats
  streaming_stats : List (String × ServiceStat)
  country_stats : List (String × Nat)
  detailed_results : List NodeTestResult
deriving Repr

/-- getattr on a result by streaming service name, as used by the
report loop (line 564). -/
def serviceField (r : NodeTestResult) : String → String
  | "netflix" => r.netflix
  | "youtube" => r.youtube
  | "disney" => r.disney
  | "bilibili" => r.bilibili
  | "bahamut" => r.bahamut
  | _ => ""

/-- Bump the count of a key in an association list, inserting it at the
end the first time, as Python dict insertion does. -/
def bumpCount (acc : List (String × Nat)) (key : String) : List (String × Nat) :=
  match acc with
  | [] => [(key, 1)]
  | (k, n) :: rest =>
    if k == key then (k, n + 1) :: rest
    else (k, n) :: bumpCount rest key

/-- The country distribution loop (lines 571-576): empty country
strings fall back to the unknown sentinel. -/
def countryStats (alive : List NodeTestResult) : List (String × Nat) :=
  alive.foldl (fun acc r => bumpCount acc (if r.country == "" then "未知" else r.country)) []

/-- EnhancedNodeTester.generate_test_report (lines 546-584): splits the
results by is_alive, computes the guarded averages and rates, the
per-service support table over the five services, and the country
counts. -/
def generate_test_report (env : Env) (results : List NodeTestResult) : Report :=
  let alive := results.filter (·.is_alive)
  let dead := results.filter (fun r => !r.is_alive)
  { test_time := env.now
    stats :=
      { total_nodes := results.length
        alive_nodes := alive.length
        dead_nodes := dead.length
        alive_rate :=
          if results.length != 0 then
            (alive.length : Rat) / (results.length : Rat) * 100
          else 0
        avg_tcp_ping :=
          if alive.length != 0 then
            ((alive.filter (fun r => 0 < r.tcp_ping)).map (·.tcp_ping)).sum
              / (alive.length : Rat)
          else 0
        avg_download_speed :=
          if alive.length != 0 then
            (alive.map (·.download_speed)).sum / (alive.length : Rat)
          else 0 }
    streaming_stats :=
      streamNames.map fun service =>
        let supported :=
          (alive.filter (fun r => (serviceField r service).startsWith "✅")).length
        (service,
         { supported := supported
           rate :=
             if alive.length != 0 then
               (supported : Rat) / (alive.length : Rat) * 100
             else 0 })
    country_stats := countryStats alive
    detailed_results := results }

/-! ## Semaphore discipline (lines 510-517)

The test_with_semaphore wrapper runs each node pipeline inside an async
with block over a counting semaphore: the permit is acquired before the
pipeline starts and released when it completes, on every outcome, since
async with releases on the exception path too.  The following transition
system is the semantics of that discipline for a batch of N pipelines
under a cap of C permits: a pending pipeline may start only by consuming
a permit, and a running pipeline finishing always returns its permit. -/

/-- Scheduler state: free permits, pipelines in flight, pipelines not
not started so far, pipelines completed. -/
structure SemState where
  permits : Nat
  running : Nat
  pending : Nat
  finished : Nat
deriving DecidableEq, Repr

/-- One scheduler transition of the semaphore discipline. -/
inductive SemStep : SemState → SemState → Prop
  | start (s : SemState) (hp : 0 < s.permits) (hn : 0 < s.pending) :
      SemStep s ⟨s.permits - 1, s.running + 1, s.pending - 1, s.finished⟩
  | finish (s : SemState) (hr : 0 < s.running) :
      SemStep s ⟨s.permits + 1, s.running - 1, s.pending, s.finished + 1⟩

/-- The initial state of a batch: C free permits, no pipeline started,
N pending. -/
def semInit (C N : Nat) : SemState := ⟨C, 0, N, 0⟩

/-- States reachable by the scheduler from the initial batch state. -/
def SemReachable (C N : Nat) (s : SemState) : Prop :=
  Relation.ReflTransGen SemStep (semInit C N) s

/-! ## Sample inputs used by witnesses and counterexamples -/

/-- A node with a protocol tag that is neither http nor socks5. -/
def nodeA : Node :=
  { name := "A", server := "a.example.com", port := 443, protocol := "vmess" }

/-- A second node, with the http protocol tag. -/
def nodeB : Node :=
  { name := "B", server := "b.example.com", port := 8080, protocol := "http" }

/-- An environment in which every network request fails (all oracle
fields at their all-failing defaults). -/
def envDead : Env := {}

/-- An environment in which the TCP connect succeeds in 12 ms and the
HTTP ping would answer in 5 ms, everything else failing. -/
def envLive : Env :=
  { tcpConnect := fun _ _ => some (0, 12), httpPing := some 5 }

/-! ## Helper lemmas -/

/-- The identity quadruple of a result. -/
def ident (r : NodeTestResult) : String × String × Nat × String :=
  (r.name, r.server, r.port, r.protocol)

/-- The pipeline never changes the identity fields it copies from the
input node. -/
lemma test_single_node_ident (cfg : Config) (env : Env) (node : Node) :
    ident (test_single_node cfg env node).1 =
      (node.name, node.server, node.port, node.protocol) := by
  unfold test_single_node
  dsimp only
  split
  · rfl
  · repeat' split
    all_goals rfl

/-- batchResults returns one result per node. -/
lemma batchResults_length (cfg : Config) (env : Env) :
    ∀ (i : Nat) (nodes : List Node),
      (batchResults cfg env i nodes).length = nodes.length := by
  intro i nodes
  induction nodes generalizing i with
  | nil => rfl
  | cons node rest ih => simp [batchResults, ih]

/-- Each batch result carries the identity of the node at its index. -/
lemma batchResults_ident (cfg : Config) (env : Env) :
    ∀ (nodes : List Node) (i j : Nat) (hj : j < nodes.length)
      (hr : j < (batchResults cfg env i nodes).length),
      ident ((batchResults cfg env i nodes).get ⟨j, hr⟩) =
        ((nodes.get ⟨j, hj⟩).name, (nodes.get ⟨j, hj⟩).server,
         (nodes.get ⟨j, hj⟩).port, (nodes.get ⟨j, hj⟩).protocol) := by
  intro nodes
  induction nodes with
  | nil => intro i j hj; exact absurd hj (by simp)
  | cons node rest ih =>
    intro i j hj hr
    cases j with
    | zero =>
      simp only [batchResults, List.get]
      rcases env.gatherExc i with _ | msg
      · exact test_single_node_ident cfg env node
      · rfl
    | succ k =>
      simp only [batchResults, List.get]
      exact ih (i + 1) k (by simpa using hj) _

/-! ## Claims -/

/-- Claim C1: for every input list of N nodes, the batch call returns a
list of exactly N results, in input order, the i-th result carrying the
identity fields of the i-th input node, whatever the probe outcomes in
the environment; and with a valid concurrency cap the empty input
yields the empty list, not an error. -/
theorem C1_batch_one_result_per_node (cfg : Config) (env : Env) :
    (∀ (nodes : List Node) (rs : List NodeTestResult),
        test_nodes_batch cfg env nodes = .ok rs →
        rs.length = nodes.length ∧
        ∀ (j : Nat) (hj : j < nodes.length) (hr : j < rs.length),
          ident (rs.get ⟨j, hr⟩) =
            ((nodes.get ⟨j, hj⟩).name, (nodes.get ⟨j, hj⟩).server,
             (nodes.get ⟨j, hj⟩).port, (nodes.get ⟨j, hj⟩).protocol)) ∧
    (0 ≤ cfg.max_concurrent.getD 5 → test_nodes_batch cfg env [] = .ok []) := by
  constructor
  · intro nodes rs h
    unfold test_nodes_batch at h
    split at h
    · exact absurd h (by simp)
    · have hrs : rs = batchResults cfg env 0 nodes := by
        simpa using h.symm
      subst hrs
      exact ⟨batchResults_length cfg env 0 nodes,
             fun j hj hr => batchResults_ident cfg env nodes 0 j hj hr⟩
  · intro hc
    unfold test_nodes_batch
    rw [if_neg (by omega)]
    rfl

/-- Witness for C1 at a concrete two-node batch in the all-failing
environment. -/
theorem C1_witness :
    test_nodes_batch defaultConfig envDead [nodeA, nodeB] =
      .ok (batchResults defaultConfig envDead 0 [nodeA, nodeB]) ∧
    (batchResults defaultConfig envDead 0 [nodeA, nodeB]).length = 2 ∧
    ident ((batchResults defaultConfig envDead 0 [nodeA, nodeB]).get
        ⟨0, by decide⟩) = ("A", "a.example.com", 443, "vmess") := by
  have h := C1_batch_one_result_per_node defaultConfig envDead
  refine ⟨rfl, ?_, ?_⟩
  · exact (h.1 [nodeA, nodeB] _ rfl).1
  · exact (h.1 [nodeA, nodeB] _ rfl).2 0 (by decide) (by decide)

/-- Claim C2: when the TCP connectivity check reports unreachable, the
result is exactly the identity fields, the timestamp, and the non-empty
TCP-failure message, every other field left at its default or sentinel
value (tcp and http ping -1, speeds 0, empty geo strings, all streaming
fields at the not-tested default), and the probe log shows only the
connectivity check was invoked. -/
theorem C2_unreachable_shortcircuit (cfg : Config) (env : Env) (node : Node)
    (h : (tcp_ping_test env node.server node.port).1 = false) :
    test_single_node cfg env node =
      ({ name := node.name, server := node.server, port := node.port
         protocol := node.protocol, test_time := env.now
         error_msg := "TCP连接失败" }, ["tcp_ping_test"]) := by
  have h2 : tcp_ping_test env node.server node.port = (false, -1) := by
    unfold tcp_ping_test at h ⊢
    rcases henv : env.tcpConnect node.server node.port with _ | ⟨code, t⟩
    · rfl
    · rw [henv] at h
      simp only at h
      simp [h]
  unfold test_single_node
  rw [h2]
  rfl

/-- Witness for C2: the all-failing environment leaves a node
unreachable and the pipeline returns the default record with the
TCP-failure message, having run only the connectivity probe. -/
theorem C2_witness :
    (tcp_ping_test envDead nodeA.server nodeA.port).1 = false ∧
    test_single_node defaultConfig envDead nodeA =
      ({ name := nodeA.name, server := nodeA.server, port := nodeA.port
         protocol := nodeA.protocol, test_time := envDead.now
         error_msg := "TCP连接失败" }, ["tcp_ping_test"]) :=
  ⟨rfl, C2_unreachable_shortcircuit defaultConfig envDead nodeA rfl⟩

/-! ## C4: throughput is the maximum over the candidate chain -/

/-- The speeds of the candidates whose attempt did not raise, in chain
order. -/
def successSpeeds (env : Env) : List Rat :=
  test_urls.filterMap fun url =>
    match download_test_single env url with
    | .error _ => none
    | .ok s => some s

/-- A non-raising attempt always reports a nonnegative speed. -/
lemma download_test_single_nonneg (env : Env) (url : String) (s : Rat)
    (h : download_test_single env url = .ok s) : 0 ≤ s := by
  unfold download_test_single at h
  rcases ha : env.downloadAttempt url with _ | ⟨status, bytes, elapsed⟩
  · rw [ha] at h; cases h
  · rw [ha] at h
    dsimp only at h
    split at h
    · rename_i hpos
      have hs : s = (if status == 200 then (bytes : Rat) else 0) / 1024 / 1024 / elapsed := by
        cases h; rfl
      rw [hs]
      have hb : (0 : Rat) ≤ (if status == 200 then (bytes : Rat) else 0) := by
        split <;> positivity
      positivity
    · cases h; exact le_refl 0

/-- The best-so-far update of the download loop is the binary maximum. -/
lemma best_update_eq_max (b s : Rat) : (if b < s then s else b) = max b s := by
  rcases le_or_lt s b with h | h
  · rw [if_neg (not_lt.mpr h), max_eq_left h]
  · rw [if_pos h, max_eq_right h.le]

/-- The candidate fold equals a maximum fold over the non-raising
speeds, for any starting accumulator. -/
lemma download_fold_eq (env : Env) :
    ∀ (urls : List String) (b : Rat),
      urls.foldl
        (fun best url =>
          match download_test_single env url with
          | .error _ => best
          | .ok speed => if best < speed then speed else best) b
      = (urls.filterMap fun url =>
          match download_test_single env url with
          | .error _ => none
          | .ok s => some s).foldl max b := by
  intro urls
  induction urls with
  | nil => intro b; rfl
  | cons u rest ih =>
    intro b
    rcases hu : download_test_single env u with e | s <;>
      simp only [List.foldl_cons, List.filterMap_cons, hu]
    · exact ih b
    · rw [best_update_eq_max]
      exact ih (max b s)

/-- A maximum fold stays at its seed or lands in the list. -/
lemma foldl_max_mem : ∀ (l : List Rat) (b : Rat),
    l.foldl max b = b ∨ l.foldl max b ∈ l := by
  intro l
  induction l with
  | nil => intro b; exact Or.inl rfl
  | cons a rest ih =>
    intro b
    rw [List.foldl_cons]
    rcases ih (max b a) with h | h
    · rcases max_choice b a with hm | hm
      · exact Or.inl (h.trans hm)
      · exact Or.inr (by rw [h, hm]; exact List.mem_cons_self a rest)
    · exact Or.inr (List.mem_cons_of_mem a h)

/-- A maximum fold bounds its seed and every list element from above. -/
lemma foldl_max_bound : ∀ (l : List Rat) (b : Rat),
    b ≤ l.foldl max b ∧ ∀ s ∈ l, s ≤ l.foldl max b := by
  intro l
  induction l with
  | nil => intro b; exact ⟨le_refl b, by simp⟩
  | cons a rest ih =>
    intro b
    rw [List.foldl_cons]
    refine ⟨le_trans (le_max_left b a) (ih (max b a)).1, ?_⟩
    intro s hs
    rcases List.mem_cons.mp hs with h | h
    · subst h
      exact le_trans (le_max_right b s) (ih (max b s)).1
    · exact (ih (max b a)).2 s h

/-- Claim C4: whenever at least one download candidate succeeds, the
probe result is the maximum of the speeds of the succeeding candidates
(it is one of them, and bounds all of them); when every candidate
raises, the result is 0; and a non-raising attempt whose elapsed time
is zero reports speed 0 for that candidate. -/
theorem C4_download_speed_is_max (env : Env) :
    (successSpeeds env ≠ [] →
      test_download_speed env ∈ successSpeeds env ∧
      ∀ s ∈ successSpeeds env, s ≤ test_download_speed env) ∧
    (successSpeeds env = [] → test_download_speed env = 0) ∧
    (∀ (url : String) (status bytes : Nat),
      env.downloadAttempt url = some (status, bytes, 0) →
      download_test_single env url = .ok 0) := by
  have heq : test_download_speed env = (successSpeeds env).foldl max 0 := by
    unfold test_download_speed successSpeeds
    exact download_fold_eq env test_urls 0
  refine ⟨?_, ?_, ?_⟩
  · intro hne
    have hnn : ∀ s ∈ successSpeeds env, 0 ≤ s := by
      intro s hs
      unfold successSpeeds at hs
      rcases List.mem_filterMap.mp hs with ⟨url, _, hu⟩
      rcases hd : download_test_single env url with e | v <;> rw [hd] at hu
      · cases hu
      · cases hu; exact download_test_single_nonneg env url s hd
    constructor
    · rw [heq]
      rcases foldl_max_mem (successSpeeds env) 0 with h | h
      · rcases hl : successSpeeds env with _ | ⟨x, rest⟩
        · exact absurd hl hne
        · rw [hl] at h
          have hble := (foldl_max_bound (x :: rest) 0).2 x (List.mem_cons_self x rest)
          rw [h] at hble
          have hx0 : x = 0 := le_antisymm hble
            (hnn x (by rw [hl]; exact List.mem_cons_self x rest))
          rw [h, ← hx0]
          exact List.mem_cons_self x rest
      · exact h
    · intro s hs
      rw [heq]
      exact (foldl_max_bound (successSpeeds env) 0).2 s hs
  · intro he
    rw [heq, he]
    rfl
  · intro url status bytes h
    unfold download_test_single
    rw [h]
    rfl

/-- Environment for the C4 witness: the second candidate delivers
2 MB in one second, the third 1 MB in one second, the others raise. -/
def envSpeed : Env :=
  { downloadAttempt := fun url =>
      if url == "http://speedtest.ftp.otenet.gr/files/test10Mb.db" then
        some (200, 2 * 1024 * 1024, 1)
      else if url == "https://proof.ovh.net/files/1Mb.dat" then
        some (200, 1024 * 1024, 1)
      else none }

/-- Witness for C4 on the stub chain fails / 2 MB/s / 1 MB/s / fails:
the probe reports a succeeding speed of 2 MB/s, at least the 1 MB/s
sibling. -/
theorem C4_witness :
    test_download_speed envSpeed = 2 ∧
    test_download_speed envSpeed ∈ successSpeeds envSpeed ∧
    (1 : Rat) ≤ test_download_speed envSpeed := by
  have hss : successSpeeds envSpeed = [2, 1] := by
    simp [successSpeeds, test_urls, download_test_single, envSpeed]
    norm_num
  refine ⟨?_, ((C4_download_speed_is_max envSpeed).1 (by rw [hss]; simp)).1,
          ((C4_download_speed_is_max envSpeed).1 (by rw [hss]; simp)).2 1
            (by rw [hss]; simp)⟩
  simp [test_download_speed, test_urls, download_test_single, envSpeed]
  norm_num

/-! ## C5: geo lookup takes the first succeeding provider -/

/-- The truthy outcome of one provider query: the parsed record when
the query neither raised nor fell through without data. -/
def queryOpt (env : Env) (api : String) : Option IpInfo :=
  match query_ip_api env api with
  | .ok (some r) => some r
  | _ => none

/-- A provider without a truthy outcome is skipped by the chain. -/
lemma get_ip_info_go_skip (env : Env) (a : String) (rest : List String)
    (h : queryOpt env a = none) :
    get_ip_info_go env (a :: rest) = get_ip_info_go env rest := by
  unfold queryOpt at h
  rcases hq : query_ip_api env a with e | o
  · simp only [get_ip_info_go, hq]
  · rcases o with _ | r
    · simp only [get_ip_info_go, hq]
    · rw [hq] at h
      dsimp only at h
      cases h

/-- A provider with a truthy outcome ends the chain with its record. -/
lemma get_ip_info_go_hit (env : Env) (a : String) (rest : List String)
    (r : IpInfo) (h : queryOpt env a = some r) :
    get_ip_info_go env (a :: rest) = r := by
  unfold queryOpt at h
  rcases hq : query_ip_api env a with e | o <;> rw [hq] at h <;>
    (try dsimp only at h)
  · cases h
  · rcases o with _ | v
    · cases h
    · cases h
      simp only [get_ip_info_go, hq]

/-- Claim C5: the geo probe returns the parsed record of the first
provider in the fixed priority chain with a truthy outcome, and the
all-unknown sentinel when every provider fails; it is a total function,
so no error reaches the caller. -/
theorem C5_geo_first_success (env : Env) :
    (∀ (l1 l2 : List String) (api : String) (r : IpInfo),
        geoApis = l1 ++ api :: l2 →
        (∀ a ∈ l1, queryOpt env a = none) →
        queryOpt env api = some r →
        get_ip_info env = r) ∧
    ((∀ a ∈ geoApis, queryOpt env a = none) →
        get_ip_info env = unknownIpInfo) := by
  have hskip : ∀ (l : List String), (∀ a ∈ l, queryOpt env a = none) →
      get_ip_info_go env l = unknownIpInfo := by
    intro l
    induction l with
    | nil => intro _; rfl
    | cons a rest ih =>
      intro h
      rw [get_ip_info_go_skip env a rest (h a (List.mem_cons_self a rest))]
      exact ih fun x hx => h x (List.mem_cons_of_mem a hx)
  constructor
  · intro l1 l2 api r hsplit hnone hr
    unfold get_ip_info
    rw [hsplit]
    clear hsplit
    induction l1 with
    | nil => exact get_ip_info_go_hit env api l2 r hr
    | cons a rest ih =>
      rw [List.cons_append,
          get_ip_info_go_skip env a _ (hnone a (List.mem_cons_self a rest))]
      exact ih fun x hx => hnone x (List.mem_cons_of_mem a hx)
  · intro h
    exact hskip geoApis h

/-- Environment for the C5 witness: the first provider raises, the
second answers with a parsable record, the rest would also answer. -/
def envGeo : Env :=
  { geoGet := fun api =>
      if api == "http://ip-api.com/json/" then
        some (200, [("query", "1.2.3.4"), ("country", "JP"),
                    ("city", "Tokyo"), ("isp", "NTT")])
      else if api == "https://httpbin.org/ip" then
        some (200, [("origin", "5.6.7.8")])
      else none }

/-- Witness for C5: with the first provider failing and the second
succeeding with ip 1.2.3.4 and country JP, the probe returns exactly
the second record, no field of the later provider mixed in. -/
theorem C5_witness :
    get_ip_info envGeo =
      { ip := "1.2.3.4", country := "JP", city := "Tokyo", isp := "NTT" } :=
  (C5_geo_first_success envGeo).1 ["https://ipapi.co/json/"]
    ["https://httpbin.org/ip", "https://api.ipify.org?format=json"]
    "http://ip-api.com/json/" _ rfl (by decide) (by decide)

/-! ## C9: report aggregation with no alive nodes -/

/-- Claim C9: on a result list with no alive node (the empty list
included), the report carries alive rate 0, average TCP latency 0,
average download speed 0, and support count 0 with rate 0 for every
capability entry; each division is guarded, so the zeroes come from the
guards, not from dividing by zero. -/
theorem C9_report_empty_alive (env : Env) (results : List NodeTestResult)
    (h : ∀ r ∈ results, r.is_alive = false) :
    (generate_test_report env results).stats.alive_rate = 0 ∧
    (generate_test_report env results).stats.avg_tcp_ping = 0 ∧
    (generate_test_report env results).stats.avg_download_speed = 0 ∧
    ∀ p ∈ (generate_test_report env results).streaming_stats,
      p.2.supported = 0 ∧ p.2.rate = 0 := by
  have halive : results.filter (·.is_alive) = [] := by
    rw [List.filter_eq_nil_iff]
    intro r hr
    simp [h r hr]
  unfold generate_test_report
  simp only [halive]
  refine ⟨?_, by simp, by simp, ?_⟩
  · split <;> simp
  · intro p hp
    rcases List.mem_map.mp hp with ⟨service, _, hpe⟩
    subst hpe
    simp

/-- A result that is not alive, for the C9 witness. -/
def resDead : NodeTestResult :=
  { name := "A", server := "a.example.com", port := 443, protocol := "vmess" }

/-- Witness for C9 on a one-element result list with no alive node. -/
theorem C9_witness :
    (generate_test_report envDead [resDead]).stats.alive_rate = 0 ∧
    (generate_test_report envDead [resDead]).stats.avg_tcp_ping = 0 ∧
    (generate_test_report envDead [resDead]).stats.avg_download_speed = 0 := by
  have h := C9_report_empty_alive envDead [resDead]
    (by intro r hr; rw [List.mem_singleton] at hr; subst hr; rfl)
  exact ⟨h.1, h.2.1, h.2.2.1⟩

/-! ## C10: hbo and prime_video are never assigned -/

/-- The pipeline never writes the hbo or prime_video fields. -/
lemma test_single_node_hbo_prime (cfg : Config) (env : Env) (node : Node) :
    (test_single_node cfg env node).1.hbo = "未测试" ∧
    (test_single_node cfg env node).1.prime_video = "未测试" := by
  unfold test_single_node
  dsimp only
  split
  · exact ⟨rfl, rfl⟩
  · repeat' split
    all_goals exact ⟨rfl, rfl⟩

/-- Neither does the batch-level exception conversion. -/
lemma batchResults_hbo_prime (cfg : Config) (env : Env) :
    ∀ (i : Nat) (nodes : List Node) (r : NodeTestResult),
      r ∈ batchResults cfg env i nodes →
      r.hbo = "未测试" ∧ r.prime_video = "未测试" := by
  intro i nodes
  induction nodes generalizing i with
  | nil => intro r hr; cases hr
  | cons node rest ih =>
    intro r hr
    rcases List.mem_cons.mp hr with h | h
    · subst h
      rcases env.gatherExc i with _ | msg
      · exact test_single_node_hbo_prime cfg env node
      · exact ⟨rfl, rfl⟩
    · exact ih (i + 1) r h

/-- Claim C10: in every result produced by the single-node pipeline or
the batch call, the hbo and prime_video fields equal the not-tested
default: the capability stage assigns only the netflix, youtube,
disney, bilibili and bahamut fields, and no other path writes these two
fields. -/
theorem C10_hbo_prime_default (cfg : Config) (env : Env) :
    (∀ node : Node,
        (test_single_node cfg env node).1.hbo = "未测试" ∧
        (test_single_node cfg env node).1.prime_video = "未测试") ∧
    (∀ (nodes : List Node) (rs : List NodeTestResult),
        test_nodes_batch cfg env nodes = .ok rs →
        ∀ r ∈ rs, r.hbo = "未测试" ∧ r.prime_video = "未测试") := by
  constructor
  · exact fun node => test_single_node_hbo_prime cfg env node
  · intro nodes rs h r hr
    unfold test_nodes_batch at h
    split at h
    · exact absurd h (by simp)
    · have hrs : rs = batchResults cfg env 0 nodes := by simpa using h.symm
      subst hrs
      exact batchResults_hbo_prime cfg env 0 nodes r hr

/-- Witness for C10 on a reachable node with streaming enabled, both
through the single pipeline and through a batch result. -/
theorem C10_witness :
    (test_single_node defaultConfig envLive nodeB).1.hbo = "未测试" ∧
    ((batchResults defaultConfig envLive 0 [nodeB]).get
        ⟨0, by decide⟩).prime_video = "未测试" :=
  ⟨((C10_hbo_prime_default defaultConfig envLive).1 nodeB).1,
   ((C10_hbo_prime_default defaultConfig envLive).2 [nodeB]
      (batchResults defaultConfig envLive 0 [nodeB]) rfl _
      (List.get_mem _ 0 (by decide))).2⟩

/-! ## C6: capability map totality and isolation -/

/-- The four abstract capability outcomes of the specification.  The
limited constructor is the partial-support outcome. -/
inductive Outcome
  | supported
  | unsupported
  | limited
  | undetermined
deriving DecidableEq, Repr

/-- Abstraction from the literal marker strings the checks produce to
the four outcomes: the full and plain support markers are supported,
the refusal marker is unsupported, the partial marker is limited, and
both the detection-failure and the timeout markers are undetermined.
Any other string is unclassified. -/
def classify : String → Option Outcome
  | "✅ 完整支持" => some .supported
  | "✅ 支持" => some .supported
  | "❌ 不支持" => some .unsupported
  | "⚠️ 部分支持" => some .limited
  | "❓ 检测失败" => some .undetermined
  | "⏱️ 超时" => some .undetermined
  | _ => none

/-- Every string the Netflix check can return is classified. -/
lemma test_netflix_classified (env : Env) :
    (classify (test_netflix env)).isSome := by
  unfold test_netflix
  repeat' split
  all_goals rfl

/-- Every string the YouTube check can return is classified. -/
lemma test_youtube_classified (env : Env) :
    (classify (test_youtube_premium env)).isSome := by
  unfold test_youtube_premium
  repeat' split
  all_goals rfl

/-- Every string the Disney check can return is classified. -/
lemma test_disney_classified (env : Env) :
    (classify (test_disney_plus env)).isSome := by
  unfold test_disney_plus
  repeat' split
  all_goals rfl

/-- Every string the bilibili check can return is classified. -/
lemma test_bilibili_classified (env : Env) :
    (classify (test_bilibili env)).isSome := by
  unfold test_bilibili
  repeat' split
  all_goals rfl

/-- Every string the bahamut check can return is classified. -/
lemma test_bahamut_classified (env : Env) :
    (classify (test_bahamut env)).isSome := by
  unfold test_bahamut
  repeat' split
  all_goals rfl

/-- Every string any capability check can return is classified. -/
lemma streamCheck_classified (env : Env) (name : String) :
    (classify (streamCheck env name)).isSome := by
  unfold streamCheck
  split
  · exact test_netflix_classified env
  · exact test_youtube_classified env
  · exact test_disney_classified env
  · exact test_bilibili_classified env
  · exact test_bahamut_classified env
  · rfl

/-- Claim C6: the capability map always carries exactly the five
attempted capability names, in order; every entry abstracts to one of
the four outcomes, with both the timeout and the detection-failure
markers abstracting to undetermined; a capability that times out gets
the timeout entry, abstracting to undetermined; and the entry of any
capability depends only on its own timeout flag, so a sibling timeout
leaves it at whatever it resolved to. -/
theorem C6_capability_map_total (env : Env) :
    ((test_all_streaming env).map Prod.fst = streamNames) ∧
    (∀ p ∈ test_all_streaming env, (classify p.2).isSome) ∧
    (∀ name ∈ streamNames, env.streamTimeout name = true →
        (name, "⏱️ 超时") ∈ test_all_streaming env ∧
        classify "⏱️ 超时" = some Outcome.undetermined) ∧
    (∀ (f : String → Bool) (name : String),
        f name = env.streamTimeout name →
        List.lookup name (test_all_streaming { env with streamTimeout := f }) =
          List.lookup name (test_all_streaming env)) := by
  refine ⟨by simp [test_all_streaming, streamNames], ?_, ?_, ?_⟩
  · intro p hp
    unfold test_all_streaming at hp
    rcases List.mem_map.mp hp with ⟨name, _, hpe⟩
    subst hpe
    dsimp only
    split
    · rfl
    · exact streamCheck_classified env name
  · intro name hmem hto
    refine ⟨List.mem_map.mpr ⟨name, hmem, ?_⟩, rfl⟩
    simp [hto]
  · intro f name h
    unfold test_all_streaming
    have hgen : ∀ ns : List String,
        List.lookup name (ns.map fun n =>
          (n, if Env.streamTimeout { env with streamTimeout := f } n then "⏱️ 超时"
              else streamCheck { env with streamTimeout := f } n)) =
        List.lookup name (ns.map fun n =>
          (n, if env.streamTimeout n then "⏱️ 超时" else streamCheck env n)) := by
      intro ns
      induction ns with
      | nil => rfl
      | cons n rest ih =>
        simp only [List.map_cons, List.lookup]
        cases hbe : name == n with
        | false => exact ih
        | true =>
          have hn : name = n := eq_of_beq hbe
          subst hn
          simp only [hbe]
          dsimp only
          rw [h]
          rfl
    exact hgen streamNames

/-- Environment for the C6 witness: the YouTube check times out, every
response is an exception. -/
def envStream : Env := { streamTimeout := fun n => n == "youtube" }

/-- Witness for C6: the map keeps all five keys, the timed-out YouTube
entry is the timeout marker abstracting to undetermined, and removing
the timeout flag of the sibling does not change the Netflix entry. -/
theorem C6_witness :
    (test_all_streaming envStream).map Prod.fst = streamNames ∧
    ("youtube", "⏱️ 超时") ∈ test_all_streaming envStream ∧
    List.lookup "netflix"
        (test_all_streaming { envStream with streamTimeout := fun _ => false }) =
      List.lookup "netflix" (test_all_streaming envStream) := by
  have h := C6_capability_map_total envStream
  exact ⟨h.1, (h.2.2.1 "youtube" (by decide) (by decide)).1,
         h.2.2.2 (fun _ => false) "netflix" (by decide)⟩

/-! ## C8: the semaphore bounds in-flight pipelines -/

/-- Claim C8: under the semaphore discipline of the batch runner, with
concurrency cap C, every state reachable from the initial batch state
has at most C pipelines in flight: a pipeline consumes a permit to
start and returns it on completion, on every outcome, so free permits
plus running pipelines is invariant. -/
theorem C8_at_most_C_in_flight (C N : Nat) (s : SemState)
    (h : SemReachable C N s) : s.running ≤ C := by
  suffices hinv : s.permits + s.running = C by omega
  unfold SemReachable at h
  induction h with
  | refl => rfl
  | tail _ hstep ih =>
    cases hstep with
    | start hp hn =>
      dsimp only
      omega
    | finish hr =>
      dsimp only
      omega

/-- Witness for C8: with cap 2 and 3 pipelines, the state after one
admission is reachable and has at most 2 pipelines running. -/
theorem C8_witness :
    (SemState.mk 1 1 2 0).running ≤ 2 :=
  C8_at_most_C_in_flight 2 3 ⟨1, 1, 2, 0⟩
    (Relation.ReflTransGen.single
      (SemStep.start (semInit 2 3) (by decide) (by decide)))

/-! ## C7: which probes run for a reachable node -/

set_option maxHeartbeats 2000000 in
/-- Shape of the pipeline on a reachable node without a pipeline-level
fault: the probe log is the connectivity check followed by the HTTP
ping exactly when a proxy URL was built, then the geo, speed and
streaming stages exactly under their flags; and the http_ping field is
the HTTP ping outcome when a proxy URL was built, the -1 default
otherwise. -/
lemma test_single_node_alive (cfg : Config) (env : Env) (node : Node)
    (halive : (tcp_ping_test env node.server node.port).1 = true)
    (hsess : env.createSessionExc = none) :
    (test_single_node cfg env node).2 =
      "tcp_ping_test" ::
      ((if (build_proxy_url node).isSome then ["http_ping_test"] else []) ++
       (if Config.flag cfg.enable_ip_test then ["get_ip_info"] else []) ++
       (if Config.flag cfg.enable_speed_test then
          ["test_download_speed", "test_upload_speed"] else []) ++
       (if Config.flag cfg.enable_streaming_test then
          ["test_all_streaming"] else [])) ∧
    (test_single_node cfg env node).1.http_ping =
      (match build_proxy_url node with
       | some u => http_ping_test env (some u)
       | none => -1) := by
  unfold test_single_node
  dsimp only
  rw [halive, hsess]
  rcases hbp : build_proxy_url node with _ | u <;>
    cases h1 : Config.flag cfg.enable_ip_test <;>
    cases h2 : Config.flag cfg.enable_speed_test <;>
    cases h3 : Config.flag cfg.enable_streaming_test <;>
    exact ⟨rfl, rfl⟩

/-- Counterexample to claim C7 as stated: a reachable node whose
protocol tag is vmess, in an environment where the HTTP ping would
answer in 5 ms, still gets no latency probe: no proxy URL is built for
that tag, the probe log lacks the HTTP ping, and the http_ping field
stays at the -1 sentinel with no error and no timeout of the probe. -/
theorem C7_counterexample :
    (test_single_node defaultConfig envLive nodeA).1.is_alive = true ∧
    envLive.httpPing = some 5 ∧
    "http_ping_test" ∉ (test_single_node defaultConfig envLive nodeA).2 ∧
    (test_single_node defaultConfig envLive nodeA).1.http_ping = -1 := by
  refine ⟨rfl, rfl, ?_, rfl⟩
  decide

/-- Claim C7 amended: for a reachable node without a pipeline-level
fault, the geo, throughput and capability probes run exactly under
their config toggles regardless of the protocol tag, but the latency
probe runs only when a proxy URL can be built, that is, when the
protocol tag is http or socks5; when it does run, it yields the -1
sentinel exactly on its own error or timeout; when it is skipped, the
field stays at the -1 sentinel. -/
theorem C7_probes_for_reachable (cfg : Config) (env : Env) (node : Node)
    (halive : (tcp_ping_test env node.server node.port).1 = true)
    (hsess : env.createSessionExc = none)
    (hnn : ∀ t : Rat, env.httpPing = some t → 0 ≤ t) :
    ((node.protocol = "http" ∨ node.protocol = "socks5") →
        "http_ping_test" ∈ (test_single_node cfg env node).2 ∧
        ((test_single_node cfg env node).1.http_ping = -1 ↔
          env.httpPing = none)) ∧
    (node.protocol ≠ "http" → node.protocol ≠ "socks5" →
        "http_ping_test" ∉ (test_single_node cfg env node).2 ∧
        (test_single_node cfg env node).1.http_ping = -1) ∧
    (Config.flag cfg.enable_ip_test = true →
        "get_ip_info" ∈ (test_single_node cfg env node).2) ∧
    (Config.flag cfg.enable_speed_test = true →
        "test_download_speed" ∈ (test_single_node cfg env node).2) ∧
    (Config.flag cfg.enable_streaming_test = true →
        "test_all_streaming" ∈ (test_single_node cfg env node).2) := by
  obtain ⟨hlog, hhttp⟩ := test_single_node_alive cfg env node halive hsess
  refine ⟨?_, ?_, ?_, ?_, ?_⟩
  · intro hp
    have hbp : (build_proxy_url node).isSome := by
      unfold build_proxy_url
      rcases hp with h | h <;> simp [h]
    constructor
    · rw [hlog]; simp [hbp]
    · rcases hbpe : build_proxy_url node with _ | u
      · rw [hbpe] at hbp; cases hbp
      · rw [hhttp, hbpe]
        unfold http_ping_test
        rcases hping : env.httpPing with _ | t
        · simp
        · have ht := hnn t hping
          dsimp only
          constructor
          · intro heq
            rw [heq] at ht
            exact absurd ht (by norm_num)
          · intro hcontra
            cases hcontra
  · intro hne1 hne2
    have hbpn : build_proxy_url node = none := by
      unfold build_proxy_url
      simp [hne1, hne2]
    constructor
    · rw [hlog]
      by_cases h1 : Config.flag cfg.enable_ip_test <;>
        by_cases h2 : Config.flag cfg.enable_speed_test <;>
        by_cases h3 : Config.flag cfg.enable_streaming_test <;>
        simp [hbpn, h1, h2, h3]
    · rw [hhttp, hbpn]
  · intro h1
    rw [hlog]
    simp [h1]
  · intro h2
    rw [hlog]
    simp [h2]
  · intro h3
    rw [hlog]
    simp [h3]

/-- Witness for the amended C7: a reachable node with the http protocol
tag gets the latency probe, and its http_ping field is the sentinel
exactly when the probe itself failed — here it answered 5 ms. -/
theorem C7_witness :
    "http_ping_test" ∈ (test_single_node defaultConfig envLive nodeB).2 ∧
    ((test_single_node defaultConfig envLive nodeB).1.http_ping = -1 ↔
      envLive.httpPing = none) :=
  (C7_probes_for_reachable defaultConfig envLive nodeB rfl rfl
    (fun t ht => by
      simp only [envLive] at ht
      cases ht
      norm_num)).1 (Or.inl rfl)

/-! ## C3: error confinement and configuration rejection -/

/-- A config dict carrying a zero concurrency cap. -/
def cfgZero : Config := { max_concurrent := some 0 }

/-- A config dict carrying a negative concurrency cap. -/
def cfgNeg : Config := { max_concurrent := some (-1) }

/-- Counterexample to claim C3 as stated: a zero cap is non-positive,
yet the batch call is not rejected — the semaphore constructor raises
only on negative initial values, so with cap 0 the call proceeds (here
on the empty batch, returning the empty result list rather than an
eager configuration error). -/
theorem C3_counterexample :
    test_nodes_batch cfgZero envDead [] = .ok [] := rfl

/-- The error text of a batch result whose task was gathered as an
exception, at any offset. -/
lemma batchResults_get_exc (cfg : Config) (env : Env) :
    ∀ (nodes : List Node) (i j : Nat)
      (hr : j < (batchResults cfg env i nodes).length) (msg : String),
      env.gatherExc (i + j) = some msg →
      ((batchResults cfg env i nodes).get ⟨j, hr⟩).error_msg = msg := by
  intro nodes
  induction nodes with
  | nil =>
    intro i j hr
    simp [batchResults] at hr
  | cons node rest ih =>
    intro i j hr msg hexc
    cases j with
    | zero =>
      rw [Nat.add_zero] at hexc
      simp only [batchResults, List.get, hexc]
    | succ k =>
      simp only [batchResults, List.get]
      refine ih (i + 1) k _ msg ?_
      have harith : i + 1 + k = i + (k + 1) := by omega
      rw [harith]
      exact hexc

/-- Claim C3 amended: the batch call fails only on a negative
concurrency cap, rejected at semaphore construction before any
pipeline output is produced; with a nonnegative cap it always returns
a result list; a task gathered as an exception becomes a result
carrying the exception text in error_msg; and a pipeline-level fault
(the session-creation raise on the reachable path) is caught and
recorded in error_msg on the result of that node. -/
theorem C3_errors_confined (cfg : Config) (env : Env) (nodes : List Node) :
    (cfg.max_concurrent.getD 5 < 0 →
      test_nodes_batch cfg env nodes =
        .error "ValueError: Semaphore initial value must be >= 0") ∧
    (0 ≤ cfg.max_concurrent.getD 5 →
      test_nodes_batch cfg env nodes = .ok (batchResults cfg env 0 nodes)) ∧
    (∀ (j : Nat) (msg : String)
        (hr : j < (batchResults cfg env 0 nodes).length),
        env.gatherExc j = some msg →
        ((batchResults cfg env 0 nodes).get ⟨j, hr⟩).error_msg = msg) ∧
    (∀ (node : Node) (msg : String),
        (tcp_ping_test env node.server node.port).1 = true →
        Config.flag cfg.enable_streaming_test = true →
        env.createSessionExc = some msg →
        (test_single_node cfg env node).1.error_msg = msg) := by
  refine ⟨?_, ?_, ?_, ?_⟩
  · intro hneg
    unfold test_nodes_batch
    rw [if_pos hneg]
  · intro hpos
    unfold test_nodes_batch
    rw [if_neg (by omega)]
  · intro j msg hr hexc
    refine batchResults_get_exc cfg env nodes 0 j hr msg ?_
    rw [Nat.zero_add]
    exact hexc
  · intro node msg halive hflag hexc
    unfold test_single_node
    dsimp only
    rw [halive, hflag, hexc]
    rcases hbp : build_proxy_url node with _ | u <;>
      cases h1 : Config.flag cfg.enable_ip_test <;>
      cases h2 : Config.flag cfg.enable_speed_test <;>
      rfl

/-- An environment whose first gathered task comes back as an
exception object. -/
def envExc : Env :=
  { gatherExc := fun i => if i == 0 then some "cancelled" else none }

/-- An environment with a reachable node and a raising session
creation. -/
def envFault : Env :=
  { tcpConnect := fun _ _ => some (0, 12), createSessionExc := some "boom" }

/-- Witness for the amended C3: a negative cap is rejected, the default
cap returns a result list, a gathered exception shows up as the error
text of that result, and a session-creation fault is recorded on the
node result. -/
theorem C3_witness :
    test_nodes_batch cfgNeg envDead [nodeA] =
      .error "ValueError: Semaphore initial value must be >= 0" ∧
    test_nodes_batch defaultConfig envDead [nodeA] =
      .ok (batchResults defaultConfig envDead 0 [nodeA]) ∧
    ((batchResults defaultConfig envExc 0 [nodeA]).get
        ⟨0, by decide⟩).error_msg = "cancelled" ∧
    (test_single_node defaultConfig envFault nodeA).1.error_msg = "boom" :=
  ⟨(C3_errors_confined cfgNeg envDead [nodeA]).1 (by decide),
   (C3_errors_confined defaultConfig envDead [nodeA]).2.1 (by decide),
   (C3_errors_confined defaultConfig envExc [nodeA]).2.2.1 0 "cancelled"
     (by decide) rfl,
   (C3_errors_confined defaultConfig envFault [nodeA]).2.2.2 nodeA "boom"
     rfl rfl rfl⟩

end EnhancedTester
